import Mathlib

/-!
Verification of the `sol` weather CLI (Go, files `main.go` and the revised
main file containing `findCurrentHourIndex`).

The embedding models:
  - the Go time library calls used by `findCurrentHourIndex`
    (`time.LoadLocation`, `time.ParseInLocation` with the fixed layout
    "2006-01-02T15:04", and the `After` comparison) — timestamps parsed in a
    single location are represented by a wall-clock minute code, and the
    timezone database by a list of resolvable names;
  - `GetWeatherForecast`, with the network and the JSON decoder as explicit
    oracles (the outcome of `client.Get`, `io.ReadAll` and `json.Unmarshal`
    is an input of the model);
  - `findCurrentHourIndex` and the daily/hourly render loops of `main`,
    where a rendered row is recorded by the index it reads (daily rows also
    carry their label);
  - `main` itself as a function from the CLI day count and the oracles to an
    outcome, instrumented with a flag recording whether the network fetch
    was attempted.

float64 values carried by the forecast record are never inspected by the
verified logic, only stored and printed; the model carries them as an
opaque scalar.
-/

namespace Sol

/-- Opaque stand-in for Go float64 values: the program only transports and
prints them, it never branches on them. -/
abbrev Float64 := Int

/-! ## Model of the Go time library -/

/-- Value of an ASCII digit character, failing on a non-digit, as Go getnum
does for a fixed-width numeric layout element. -/
def digitVal (c : Char) : Option Nat :=
  if c.isDigit then some (c.toNat - 48) else none

/-- Two-digit fixed-width number (Go layout elements "01", "02", "15",
"04"). -/
def num2 (a b : Char) : Option Nat := do
  let x ← digitVal a
  let y ← digitVal b
  pure (10 * x + y)

/-- Four-digit fixed-width number (Go layout element "2006"). -/
def num4 (a b c d : Char) : Option Nat := do
  let x ← num2 a b
  let y ← num2 c d
  pure (100 * x + y)

/-- Go isLeap. -/
def isLeap (y : Nat) : Bool :=
  y % 4 == 0 && (y % 100 != 0 || y % 400 == 0)

/-- Days in a month, as Go daysIn, used by time.Parse to validate the day
field. -/
def daysInMonth (mo y : Nat) : Nat :=
  if mo == 2 then (if isLeap y then 29 else 28)
  else if mo == 4 || mo == 6 || mo == 9 || mo == 11 then 30
  else 31

/-- Wall-clock minute code of a local timestamp. The coefficients strictly
dominate the ranges of the fields (month at most 12 with 13, day at most 31
with 32, hour at most 23 with 24, minute at most 59 with 60), so on valid
fields the code is strictly monotone in chronological order; within one
location Go After agrees with this order. -/
def mkInstant (y mo d hh mi : Nat) : Nat :=
  (((y * 13 + mo) * 32 + d) * 24 + hh) * 60 + mi

/-- Model of Go time.ParseInLocation with the fixed layout
"2006-01-02T15:04": the value must be exactly sixteen characters, digits and
separators in the layout positions, with month, day (against the month
length), hour and minute validated the way Go time.Parse validates them.
The location only matters through the resolvability of its name, which is
checked separately by loadLocation. -/
def parseTimestamp (s : String) : Option Nat :=
  match s.data with
  | [y1, y2, y3, y4, c1, m1, m2, c2, d1, d2, c3, h1, h2, c4, n1, n2] =>
    if c1 == '-' && c2 == '-' && c3 == 'T' && c4 == ':' then do
      let y ← num4 y1 y2 y3 y4
      let mo ← num2 m1 m2
      let d ← num2 d1 d2
      let hh ← num2 h1 h2
      let mi ← num2 n1 n2
      if 1 ≤ mo ∧ mo ≤ 12 ∧ 1 ≤ d ∧ d ≤ daysInMonth mo y ∧ hh ≤ 23 ∧ mi ≤ 59 then
        pure (mkInstant y mo d hh mi)
      else none
    else none
  | _ => none

/-- Model of Go time.LoadLocation: the timezone database is the list of
resolvable names. -/
def loadLocation (tzdb : List String) (name : String) : Option Unit :=
  if name ∈ tzdb then some () else none

/-- Error wrapping a timezone name that failed to resolve (the error built
at the top of findCurrentHourIndex). -/
structure TimezoneError where
  timezone : String
deriving DecidableEq

/-! ## findCurrentHourIndex -/

/-- The scan loop of findCurrentHourIndex: walk the entries carrying the
running index, skip an entry whose timestamp fails to parse, return the
running index at the first entry parsing strictly after now, and fall
through to 0 when no entry qualifies. -/
def scanHours (now : Nat) : List String → Nat → Nat
  | [], _ => 0
  | timeStr :: rest, i =>
    match parseTimestamp timeStr with
    | none => scanHours now rest (i + 1)
    | some forecastTime =>
      if now < forecastTime then i else scanHours now rest (i + 1)

/-- findCurrentHourIndex: resolve the timezone (error when it fails, with
index 0 in the Go multi-return), then scan for the first entry strictly
after now. The current instant now is a parameter of the model standing for
time.Now seen in the resolved location. -/
def findCurrentHourIndex (tzdb : List String) (now : Nat)
    (hourlyTimes : List String) (timezone : String) :
    Nat × Option TimezoneError :=
  match loadLocation tzdb timezone with
  | none => (0, some { timezone := timezone })
  | some _ => (scanHours now hourlyTimes 0, none)

/-- An entry counts as a hit for the scan exactly when its timestamp parses
and the parsed instant is strictly after now. -/
def isAfter (now : Nat) (timeStr : String) : Bool :=
  match parseTimestamp timeStr with
  | none => false
  | some t => decide (now < t)

/-! ## Data model -/

/-- The hourly block of the decoded forecast. -/
structure HourlyData where
  time : List String
  temperature2m : List Float64
  precipitationProbability : List Float64
  precipitation : List Float64
deriving DecidableEq

/-- The daily block of the decoded forecast. -/
structure DailyData where
  time : List String
  temperature2mMax : List Float64
  temperature2mMin : List Float64
  precipitationSum : List Float64
  rainSum : List Float64
  precipitationHours : List Float64
  precipitationProbabilityMax : List Float64
  windSpeed10mMax : List Float64
deriving DecidableEq

/-- The decoded forecast record (struct WeatherResponse). -/
structure WeatherResponse where
  latitude : Float64
  longitude : Float64
  timezone : String
  hourly : HourlyData
  daily : DailyData
deriving DecidableEq

/-! ## Forecast client (GetWeatherForecast) -/

/-- Model of url.Values: an ordered list of key/value pairs. -/
abbrev Values := List (String × String)

/-- Model of url.Values.Add: append the pair. -/
def Values.add (v : Values) (key val : String) : Values :=
  v ++ [(key, val)]

/-- The fixed base endpoint. -/
def forecastBaseURL : String := "https://api.open-meteo.com/v1/forecast"

/-- The query parameters built by GetWeatherForecast, by the same sequence
of Add calls as the source; latitude and longitude go through the float
formatter, which models strconv.FormatFloat with format f and precision -1
(minimal decimal representation). -/
def forecastParams (fmtFloat : Float64 → String) (lat lon : Float64) : Values :=
  Values.add
    (Values.add
      (Values.add
        (Values.add
          (Values.add ([] : Values) "latitude" (fmtFloat lat))
          "longitude" (fmtFloat lon))
        "hourly" "temperature_2m,precipitation_probability,precipitation")
      "daily" "temperature_2m_max,temperature_2m_min,precipitation_sum,rain_sum,precipitation_hours,precipitation_probability_max,wind_speed_10m_max")
    "timezone" "auto"

/-- The GET request handed to the HTTP client. -/
structure HttpRequest where
  base : String
  params : Values
deriving DecidableEq

/-- Outcome of io.ReadAll on the response body. -/
inductive BodyResult where
  | readFailure
  | bytes (s : String)
deriving DecidableEq

/-- Outcome of client.Get: transport failure, or a response with a status
code and a body. -/
inductive HttpResult where
  | transportFailure
  | response (statusCode : Nat) (body : BodyResult)
deriving DecidableEq

/-- The four failure classes of GetWeatherForecast, one per early return of
the source. -/
inductive FetchError where
  | transportError
  | statusError (code : Nat)
  | bodyReadError
  | decodeError
deriving DecidableEq

/-- Processing of the client.Get outcome in GetWeatherForecast: status
check, body read, JSON decode, in source order. -/
def processResponse (decodeJSON : String → Option WeatherResponse)
    (r : HttpResult) : Except FetchError WeatherResponse :=
  match r with
  | .transportFailure => .error .transportError
  | .response statusCode body =>
    if statusCode ≠ 200 then .error (.statusError statusCode)
    else
      match body with
      | .readFailure => .error .bodyReadError
      | .bytes s =>
        match decodeJSON s with
        | none => .error .decodeError
        | some w => .ok w

/-- GetWeatherForecast: build the request from the coordinates and process
what the network returns for it. The network and the JSON decoder are
oracles of the model. -/
def GetWeatherForecast (fmtFloat : Float64 → String) (lat lon : Float64)
    (net : HttpRequest → HttpResult)
    (decodeJSON : String → Option WeatherResponse) :
    Except FetchError WeatherResponse :=
  processResponse decodeJSON
    (net { base := forecastBaseURL, params := forecastParams fmtFloat lat lon })

/-! ## Forecast presenter and main -/

/-- The label of the daily row at index i. -/
def dayLabel (i : Nat) : String :=
  if i == 0 then "Today"
  else if i == 1 then "Tomorrow"
  else "Day " ++ toString (i + 1)

/-- The daily render loop: daysToShow is the requested count clamped to the
length of the daily series, and each iteration reads index i and prints its
label. A row is recorded as the index it reads together with its label. -/
def renderDaily (days len : Nat) : List (Nat × String) :=
  let daysToShow := if len < days then len else days
  (List.range daysToShow).map fun i => (i, dayLabel i)

/-- The clamp on hoursToPrint before the hourly loop: start from 5 and,
when currentIndex + 5 overruns the series, drop to maxIndex - currentIndex,
computed in Go int arithmetic (hence possibly negative). -/
def hoursToPrintAfterClamp (len s : Nat) : Int :=
  if (s : Int) + 5 > (len : Int) then (len : Int) - (s : Int) else 5

/-- The hourly render loop: iterate j below the clamped count, read index
currentIndex + j, and break as soon as the index reaches the end of the
series. A row is recorded as the index it reads. -/
def renderHourly (len s : Nat) : List Nat :=
  ((List.range (hoursToPrintAfterClamp len s).toNat).map fun j => s + j).takeWhile
    fun idx => decide (idx < len)

/-- The index the hourly loop starts from: the index returned by
findCurrentHourIndex, replaced by 0 when it reported an error (the warning
branch of main). -/
def currentIndexUsed (tzdb : List String) (now : Nat)
    (hourlyTimes : List String) (timezone : String) : Nat :=
  let r := findCurrentHourIndex tzdb now hourlyTimes timezone
  match r.2 with
  | some _ => 0
  | none => r.1

/-- What the presenter phase of main produces: whether the timezone warning
was printed, the daily rows, and the hourly rows. -/
structure RenderOutput where
  tzWarning : Bool
  dailyRows : List (Nat × String)
  hourlyRows : List Nat
deriving DecidableEq

/-- The presenter phase of main after a successful fetch: daily loop,
findCurrentHourIndex with the non-fatal error fallback, hourly loop. -/
def presentForecast (tzdb : List String) (now : Nat) (days : Nat)
    (resp : WeatherResponse) : RenderOutput :=
  let r := findCurrentHourIndex tzdb now resp.hourly.time resp.timezone
  let currentIndex := match r.2 with | some _ => 0 | none => r.1
  { tzWarning := r.2.isSome
    dailyRows := renderDaily days resp.daily.time.length
    hourlyRows := renderHourly resp.hourly.time.length currentIndex }

/-- The three ways a run of main ends: the day-count validation failure,
a fatal fetch failure, or a completed render. -/
inductive MainResult where
  | exitDaysError
  | exitFetchError (e : FetchError)
  | done (out : RenderOutput)
deriving DecidableEq

/-- The process exit status of an outcome: 0 on success, 1 on either
failure. -/
def exitCode : MainResult → Nat
  | .done _ => 0
  | .exitDaysError => 1
  | .exitFetchError _ => 1

/-- main after flag parsing: validate the day count, fetch, present. The
Bool records whether the network fetch was attempted. -/
def mainRun (days : Int) (fmtFloat : Float64 → String) (lat lon : Float64)
    (net : HttpRequest → HttpResult)
    (decodeJSON : String → Option WeatherResponse)
    (tzdb : List String) (now : Nat) : Bool × MainResult :=
  if days < 1 then (false, .exitDaysError)
  else
    (true,
      match GetWeatherForecast fmtFloat lat lon net decodeJSON with
      | .error e => .exitFetchError e
      | .ok resp => .done (presentForecast tzdb now days.toNat resp))

/-- Specification of the index located by the scan, in the words of the
spec: either the entry at the returned index parses strictly after now and
is the first entry of the sequence doing so, or no entry parses strictly
after now and the returned index is 0. -/
def LocateSpec (now : Nat) (ts : List String) (i : Nat) : Prop :=
  (∃ j, j < ts.length ∧ i = j ∧ isAfter now (ts.getD j "") = true ∧
    ∀ j2, j2 < j → isAfter now (ts.getD j2 "") = false)
  ∨ ((∀ s ∈ ts, isAfter now s = false) ∧ i = 0)

/-- A concrete forecast record with index-aligned sequences, used to
instantiate hypotheses of the theorems below on a concrete run. Its
timezone name is deliberately not in any database used with it. -/
def sampleResp : WeatherResponse :=
  { latitude := 0, longitude := 0, timezone := "Mars/Olympus",
    hourly := { time := ["2024-01-01T00:00", "2024-01-01T01:00"],
                temperature2m := [10, 11],
                precipitationProbability := [0, 1],
                precipitation := [0, 0] },
    daily := { time := ["2024-01-01"], temperature2mMax := [15],
               temperature2mMin := [5], precipitationSum := [0], rainSum := [0],
               precipitationHours := [0], precipitationProbabilityMax := [0],
               windSpeed10mMax := [3] } }

/-! ## Helper lemmas -/

/-- takeWhile keeps the whole list when the predicate holds everywhere. -/
theorem takeWhile_all {α : Type} {p : α → Bool} (l : List α)
    (h : ∀ a ∈ l, p a = true) : l.takeWhile p = l := by
  induction l with
  | nil => rfl
  | cons a l ih =>
    rw [List.takeWhile_cons, h a (by simp), if_pos rfl]
    rw [ih fun b hb => h b (by simp [hb])]

/-- One step of the scan: an entry is taken exactly when it parses strictly
after now, and is skipped (advancing the running index) otherwise,
regardless of whether it failed to parse or parsed into the past. -/
theorem scanHours_cons (now : Nat) (t : String) (rest : List String) (i : Nat) :
    scanHours now (t :: rest) i =
      if isAfter now t then i else scanHours now rest (i + 1) := by
  cases h : parseTimestamp t with
  | none => simp [scanHours, isAfter, h]
  | some ft => by_cases hlt : now < ft <;> simp [scanHours, isAfter, h, hlt]

/-- Characterisation of the scan from any running index: it returns the
running index advanced to the first hit, or 0 when there is no hit. -/
theorem scanHours_spec (now : Nat) (ts : List String) (k : Nat) :
    (∃ j, j < ts.length ∧ isAfter now (ts.getD j "") = true ∧
      (∀ j2, j2 < j → isAfter now (ts.getD j2 "") = false) ∧
      scanHours now ts k = k + j)
    ∨ ((∀ s ∈ ts, isAfter now s = false) ∧ scanHours now ts k = 0) := by
  induction ts generalizing k with
  | nil => exact Or.inr ⟨by simp, rfl⟩
  | cons t rest ih =>
    cases hA : isAfter now t with
    | true =>
      refine Or.inl ⟨0, by simp, by simpa using hA, ?_, ?_⟩
      · intro j2 hj2; omega
      · simp [scanHours_cons, hA]
    | false =>
      rcases ih (k + 1) with ⟨j, hj, hAj, hF, hEq⟩ | ⟨hAll, hEq⟩
      · refine Or.inl ⟨j + 1, by simpa using Nat.succ_lt_succ hj, ?_, ?_, ?_⟩
        · simpa [List.getD_cons_succ] using hAj
        · intro j2 hj2
          match j2 with
          | 0 => simpa using hA
          | j3 + 1 =>
            simpa [List.getD_cons_succ] using hF j3 (by omega)
        · rw [scanHours_cons, if_neg (by simp [hA]), hEq]; omega
      · refine Or.inr ⟨?_, ?_⟩
        · intro s hs
          rcases List.mem_cons.mp hs with rfl | hs2
          · exact hA
          · exact hAll s hs2
        · rw [scanHours_cons, if_neg (by simp [hA])]; exact hEq

/-- On a non-empty sequence the scan from 0 stays strictly within
bounds. -/
theorem scanHours_lt_length (now : Nat) (ts : List String)
    (h : 0 < ts.length) : scanHours now ts 0 < ts.length := by
  rcases scanHours_spec now ts 0 with ⟨j, hj, _, _, hEq⟩ | ⟨_, hEq⟩ <;> omega

/-- Closed form of the clamped hourly count. -/
theorem hoursToPrintAfterClamp_toNat (len s : Nat) :
    (hoursToPrintAfterClamp len s).toNat = min 5 (len - s) := by
  unfold hoursToPrintAfterClamp
  split <;> omega

/-- Closed form of the hourly render loop: the break never fires before the
clamped count runs out, so the rows are exactly the window of min 5
(len - s) consecutive indices starting at s. -/
theorem renderHourly_eq (len s : Nat) :
    renderHourly len s = (List.range (min 5 (len - s))).map fun j => s + j := by
  unfold renderHourly
  rw [hoursToPrintAfterClamp_toNat]
  apply takeWhile_all
  intro a ha
  simp only [List.mem_map, List.mem_range] at ha
  obtain ⟨j, hj, rfl⟩ := ha
  simp only [decide_eq_true_eq]
  omega

/-- Closed form of the daily render loop. -/
theorem renderDaily_eq (days len : Nat) :
    renderDaily days len =
      (List.range (min days len)).map fun i => (i, dayLabel i) := by
  have h : (if len < days then len else days) = min days len := by
    split <;> omega
  simp only [renderDaily, h]

/-! ## Claim theorems -/

/-- Claim C1: for every sequence of hourly timestamp strings and every
current instant now, findCurrentHourIndex (under a resolvable timezone)
returns, without error, an index that either is the first entry parsing
strictly after now, or is 0 when no entry parses strictly after now,
including the empty sequence. -/
theorem locateNow_first_future (tzdb : List String) (timezone : String)
    (hTz : loadLocation tzdb timezone ≠ none) (now : Nat)
    (hourlyTimes : List String) :
    (findCurrentHourIndex tzdb now hourlyTimes timezone).2 = none ∧
    LocateSpec now hourlyTimes
      (findCurrentHourIndex tzdb now hourlyTimes timezone).1 := by
  cases hL : loadLocation tzdb timezone with
  | none => exact absurd hL hTz
  | some u =>
    refine ⟨by simp [findCurrentHourIndex, hL], ?_⟩
    have hIdx : (findCurrentHourIndex tzdb now hourlyTimes timezone).1 =
        scanHours now hourlyTimes 0 := by
      simp [findCurrentHourIndex, hL]
    rw [hIdx]
    rcases scanHours_spec now hourlyTimes 0 with ⟨j, hj, hA, hF, hEq⟩ | ⟨hAll, hEq⟩
    · exact Or.inl ⟨j, hj, by omega, hA, hF⟩
    · exact Or.inr ⟨hAll, hEq⟩

/-- Witness for C1 at a concrete resolvable timezone and sequence. -/
theorem locateNow_first_future_witness :
    loadLocation ["UTC"] "UTC" ≠ none ∧
    ((findCurrentHourIndex ["UTC"] 0 ["2024-01-01T01:00"] "UTC").2 = none ∧
     LocateSpec 0 ["2024-01-01T01:00"]
       (findCurrentHourIndex ["UTC"] 0 ["2024-01-01T01:00"] "UTC").1) :=
  ⟨by decide,
   locateNow_first_future ["UTC"] "UTC" (by decide) 0 ["2024-01-01T01:00"]⟩

/-- Claim C2: for every hourly sequence and the start index the run uses,
the hourly summary is exactly the window of min 5 (length - s) consecutive
indices starting at s, in order, and never reads past the end of the
sequence. -/
theorem hourly_render_window (tzdb : List String) (now days : Nat)
    (resp : WeatherResponse) :
    (presentForecast tzdb now days resp).hourlyRows =
      (List.range (min 5 (resp.hourly.time.length -
          currentIndexUsed tzdb now resp.hourly.time resp.timezone))).map
        (fun j => currentIndexUsed tzdb now resp.hourly.time resp.timezone + j) ∧
    ∀ idx ∈ (presentForecast tzdb now days resp).hourlyRows,
      idx < resp.hourly.time.length := by
  have h1 : (presentForecast tzdb now days resp).hourlyRows =
      renderHourly resp.hourly.time.length
        (currentIndexUsed tzdb now resp.hourly.time resp.timezone) := rfl
  constructor
  · rw [h1, renderHourly_eq]
  · intro idx hidx
    rw [h1, renderHourly_eq] at hidx
    simp only [List.mem_map, List.mem_range] at hidx
    obtain ⟨j, hj, rfl⟩ := hidx
    omega

/-- Claim C3: the scan skips any entry whose timestamp fails to parse and
continues, and on the concrete input of the spec, with now at half past
midnight on 2024-01-01, it returns index 2. -/
theorem locateNow_skips_unparseable (bad : String)
    (hbad : parseTimestamp bad = none) (now k : Nat) (rest : List String) :
    scanHours now (bad :: rest) k = scanHours now rest (k + 1) ∧
    findCurrentHourIndex ["America/New_York"] (mkInstant 2024 1 1 0 30)
        ["bad", "2024-01-01T00:00", "2024-01-01T01:00"] "America/New_York" =
      (2, none) := by
  refine ⟨?_, by decide⟩
  simp [scanHours, hbad]

/-- Witness for C3 on a concrete unparseable entry. -/
theorem locateNow_skips_unparseable_witness :
    parseTimestamp "bad" = none ∧
    (scanHours 7 ["bad"] 0 = scanHours 7 [] (0 + 1) ∧
     findCurrentHourIndex ["America/New_York"] (mkInstant 2024 1 1 0 30)
         ["bad", "2024-01-01T00:00", "2024-01-01T01:00"] "America/New_York" =
       (2, none)) :=
  ⟨by decide, locateNow_skips_unparseable "bad" (by decide) 7 0 []⟩

/-- Claim C10: findCurrentHourIndex reports an error exactly when the
timezone fails to resolve, and in that case the error carries the timezone
name; with a resolving timezone the error is nil for every input sequence,
however many entries fail to parse and whether or not any future entry
exists. -/
theorem locateNow_error_iff (tzdb : List String) (timezone : String)
    (now : Nat) (hourlyTimes : List String) :
    ((findCurrentHourIndex tzdb now hourlyTimes timezone).2.isSome = true ↔
      loadLocation tzdb timezone = none) ∧
    (loadLocation tzdb timezone = none →
      (findCurrentHourIndex tzdb now hourlyTimes timezone).2 =
        some { timezone := timezone }) := by
  cases hL : loadLocation tzdb timezone with
  | none => simp [findCurrentHourIndex, hL]
  | some u => simp [findCurrentHourIndex, hL]

/-- Claim C4: when the timezone cannot be resolved, findCurrentHourIndex
returns a non-nil TimezoneError carrying the timezone name, and the run
treats it as non-fatal: the index used falls back to 0, the warning is
emitted, the hourly summary is still rendered from index 0, and the run
completes with exit status 0 rather than terminating. -/
theorem timezone_error_nonfatal (tzdb : List String) (now : Nat) (days : Int)
    (fmtFloat : Float64 → String) (lat lon : Float64)
    (net : HttpRequest → HttpResult)
    (decodeJSON : String → Option WeatherResponse) (resp : WeatherResponse)
    (hTz : loadLocation tzdb resp.timezone = none) (hDays : 1 ≤ days)
    (hFetch : GetWeatherForecast fmtFloat lat lon net decodeJSON = .ok resp) :
    (findCurrentHourIndex tzdb now resp.hourly.time resp.timezone).2 =
      some { timezone := resp.timezone } ∧
    currentIndexUsed tzdb now resp.hourly.time resp.timezone = 0 ∧
    mainRun days fmtFloat lat lon net decodeJSON tzdb now =
      (true, .done (presentForecast tzdb now days.toNat resp)) ∧
    (presentForecast tzdb now days.toNat resp).tzWarning = true ∧
    (presentForecast tzdb now days.toNat resp).hourlyRows =
      renderHourly resp.hourly.time.length 0 ∧
    exitCode (mainRun days fmtFloat lat lon net decodeJSON tzdb now).2 = 0 := by
  have hFCH : findCurrentHourIndex tzdb now resp.hourly.time resp.timezone =
      (0, some { timezone := resp.timezone }) := by
    simp [findCurrentHourIndex, hTz]
  have hMain : mainRun days fmtFloat lat lon net decodeJSON tzdb now =
      (true, .done (presentForecast tzdb now days.toNat resp)) := by
    unfold mainRun
    rw [if_neg (by omega), hFetch]
  refine ⟨by rw [hFCH], by simp [currentIndexUsed, hFCH], hMain,
    by simp [presentForecast, hFCH], by simp [presentForecast, hFCH],
    by rw [hMain]; rfl⟩

/-- Witness for C4 on a concrete run whose response names an unresolvable
timezone. -/
theorem timezone_error_nonfatal_witness :
    loadLocation [] sampleResp.timezone = none ∧ (1 : Int) ≤ 1 ∧
    GetWeatherForecast (fun _ => "0") 0 0
        (fun _ => HttpResult.response 200 (BodyResult.bytes "0"))
        (fun _ => some sampleResp) = .ok sampleResp ∧
    ((findCurrentHourIndex [] 0 sampleResp.hourly.time sampleResp.timezone).2 =
        some { timezone := sampleResp.timezone } ∧
     currentIndexUsed [] 0 sampleResp.hourly.time sampleResp.timezone = 0 ∧
     mainRun 1 (fun _ => "0") 0 0
         (fun _ => HttpResult.response 200 (BodyResult.bytes "0"))
         (fun _ => some sampleResp) [] 0 =
       (true, .done (presentForecast [] 0 (1 : Int).toNat sampleResp)) ∧
     (presentForecast [] 0 (1 : Int).toNat sampleResp).tzWarning = true ∧
     (presentForecast [] 0 (1 : Int).toNat sampleResp).hourlyRows =
       renderHourly sampleResp.hourly.time.length 0 ∧
     exitCode (mainRun 1 (fun _ => "0") 0 0
         (fun _ => HttpResult.response 200 (BodyResult.bytes "0"))
         (fun _ => some sampleResp) [] 0).2 = 0) :=
  ⟨by decide, by decide, rfl,
   timezone_error_nonfatal [] 0 1 (fun _ => "0") 0 0
     (fun _ => HttpResult.response 200 (BodyResult.bytes "0"))
     (fun _ => some sampleResp) sampleResp (by decide) (by decide) rfl⟩

/-- Claim C5: for every requested day count of at least 1, the daily
summary renders exactly min N (length of the daily series) rows, in order,
with row 0 labeled Today, row 1 labeled Tomorrow, and every row at index at
least 2 labeled Day followed by the successor of the index. -/
theorem daily_render_window (days len : Nat) (hdays : 1 ≤ days) :
    (renderDaily days len).length = min days len ∧
    (∀ i, i < min days len →
      (renderDaily days len)[i]? = some (i, dayLabel i)) ∧
    dayLabel 0 = "Today" ∧
    dayLabel 1 = "Tomorrow" ∧
    ∀ i, 2 ≤ i → dayLabel i = "Day " ++ toString (i + 1) := by
  refine ⟨?_, ?_, rfl, rfl, ?_⟩
  · rw [renderDaily_eq]; simp
  · intro i hi
    rw [renderDaily_eq, List.getElem?_map, List.getElem?_range hi]
    rfl
  · intro i hi
    have h0 : (i == 0) = false := by simp; omega
    have h1 : (i == 1) = false := by simp; omega
    simp [dayLabel, h0, h1]

/-- Witness for C5 on the spec scenario of 3 days of data and a request
for 7. -/
theorem daily_render_window_witness :
    1 ≤ 7 ∧
    ((renderDaily 7 3).length = min 7 3 ∧
     (∀ i, i < min 7 3 → (renderDaily 7 3)[i]? = some (i, dayLabel i)) ∧
     dayLabel 0 = "Today" ∧
     dayLabel 1 = "Tomorrow" ∧
     ∀ i, 2 ≤ i → dayLabel i = "Day " ++ toString (i + 1)) :=
  ⟨by decide, daily_render_window 7 3 (by decide)⟩

/-- Claim C6: every response with a status code other than 200 makes the
fetch fail with a StatusError carrying that code, the run then exits with
status 1, and the four fetch error conditions are pairwise
distinguishable. -/
theorem fetch_status_error (fmtFloat : Float64 → String) (lat lon : Float64)
    (code : Nat) (body : BodyResult) (hCode : code ≠ 200)
    (decodeJSON : String → Option WeatherResponse) (days : Int)
    (hDays : 1 ≤ days) (tzdb : List String) (now : Nat) :
    GetWeatherForecast fmtFloat lat lon (fun _ => .response code body)
        decodeJSON = .error (.statusError code) ∧
    mainRun days fmtFloat lat lon (fun _ => .response code body) decodeJSON
        tzdb now = (true, .exitFetchError (.statusError code)) ∧
    exitCode (.exitFetchError (.statusError code)) = 1 ∧
    (∀ c, FetchError.statusError c ≠ .transportError) ∧
    (∀ c, FetchError.statusError c ≠ .bodyReadError) ∧
    (∀ c, FetchError.statusError c ≠ .decodeError) ∧
    FetchError.transportError ≠ .bodyReadError ∧
    FetchError.transportError ≠ .decodeError ∧
    FetchError.bodyReadError ≠ .decodeError := by
  have hG : GetWeatherForecast fmtFloat lat lon (fun _ => .response code body)
      decodeJSON = .error (.statusError code) := by
    simp [GetWeatherForecast, processResponse, hCode]
  refine ⟨hG, ?_, rfl, ?_, ?_, ?_, ?_, ?_, ?_⟩
  · unfold mainRun
    rw [if_neg (by omega), hG]
  · intro c h; exact FetchError.noConfusion h
  · intro c h; exact FetchError.noConfusion h
  · intro c h; exact FetchError.noConfusion h
  · intro h; exact FetchError.noConfusion h
  · intro h; exact FetchError.noConfusion h
  · intro h; exact FetchError.noConfusion h

/-- Witness for C6 on the spec scenario of a mocked 500 response. -/
theorem fetch_status_error_witness :
    (500 : Nat) ≠ 200 ∧ (1 : Int) ≤ 1 ∧
    (GetWeatherForecast (fun _ => "0") 0 0
         (fun _ => .response 500 (BodyResult.bytes "0")) (fun _ => none) =
       .error (.statusError 500) ∧
     mainRun 1 (fun _ => "0") 0 0
         (fun _ => .response 500 (BodyResult.bytes "0")) (fun _ => none)
         [] 0 = (true, .exitFetchError (.statusError 500)) ∧
     exitCode (.exitFetchError (.statusError 500)) = 1 ∧
     (∀ c, FetchError.statusError c ≠ .transportError) ∧
     (∀ c, FetchError.statusError c ≠ .bodyReadError) ∧
     (∀ c, FetchError.statusError c ≠ .decodeError) ∧
     FetchError.transportError ≠ .bodyReadError ∧
     FetchError.transportError ≠ .decodeError ∧
     FetchError.bodyReadError ≠ .decodeError) :=
  ⟨by decide, by decide,
   fetch_status_error (fun _ => "0") 0 0 500 (BodyResult.bytes "0")
     (by decide) (fun _ => none) 1 (by decide) [] 0⟩

/-- Claim C7: a day count below 1 ends the run with exit status 1 before
any network activity: the outcome is the validation failure, the fetch
attempt flag stays false, and the outcome does not depend on the network
oracle at all. -/
theorem days_validation_no_fetch (days : Int) (hDays : days < 1)
    (fmtFloat : Float64 → String) (lat lon : Float64)
    (net : HttpRequest → HttpResult)
    (decodeJSON : String → Option WeatherResponse)
    (tzdb : List String) (now : Nat) :
    mainRun days fmtFloat lat lon net decodeJSON tzdb now =
      (false, .exitDaysError) ∧
    exitCode (mainRun days fmtFloat lat lon net decodeJSON tzdb now).2 = 1 := by
  have h : mainRun days fmtFloat lat lon net decodeJSON tzdb now =
      (false, .exitDaysError) := by
    unfold mainRun
    rw [if_pos hDays]
  exact ⟨h, by rw [h]; rfl⟩

/-- Witness for C7 on the spec scenario of a zero day count. -/
theorem days_validation_no_fetch_witness :
    (0 : Int) < 1 ∧
    (mainRun 0 (fun _ => "0") 0 0 (fun _ => .transportFailure)
        (fun _ => none) [] 0 = (false, .exitDaysError) ∧
     exitCode (mainRun 0 (fun _ => "0") 0 0 (fun _ => .transportFailure)
        (fun _ => none) [] 0).2 = 1) :=
  ⟨by decide,
   days_validation_no_fetch 0 (by decide) (fun _ => "0") 0 0
     (fun _ => .transportFailure) (fun _ => none) [] 0⟩

/-- Claim C8: for every pair of coordinates, the fetch builds a GET request
against the fixed base endpoint whose query parameters are exactly
latitude and longitude through the minimal-precision float formatter, the
fixed hourly field list, the fixed daily field list, and the literal auto
timezone, and it hands exactly that request to the network. -/
theorem fetch_query_params (fmtFloat : Float64 → String) (lat lon : Float64) :
    forecastParams fmtFloat lat lon =
      [("latitude", fmtFloat lat), ("longitude", fmtFloat lon),
       ("hourly", "temperature_2m,precipitation_probability,precipitation"),
       ("daily", "temperature_2m_max,temperature_2m_min,precipitation_sum,rain_sum,precipitation_hours,precipitation_probability_max,wind_speed_10m_max"),
       ("timezone", "auto")] ∧
    forecastBaseURL = "https://api.open-meteo.com/v1/forecast" ∧
    ∀ (net : HttpRequest → HttpResult)
      (decodeJSON : String → Option WeatherResponse),
      GetWeatherForecast fmtFloat lat lon net decodeJSON =
        processResponse decodeJSON
          (net { base := forecastBaseURL,
                 params := forecastParams fmtFloat lat lon }) := by
  refine ⟨?_, rfl, fun net d => rfl⟩
  simp [forecastParams, Values.add]

/-- Claim C9: under the invariant that the hourly sequences share one
length and the daily sequences share one length, every index read by the
daily and hourly render loops is within bounds of every sequence it reads,
and findCurrentHourIndex returns an index strictly within the hourly
sequence when it is non-empty, and 0 when it is empty. -/
theorem render_indices_in_bounds (tzdb : List String) (now days : Nat)
    (resp : WeatherResponse)
    (hH1 : resp.hourly.temperature2m.length = resp.hourly.time.length)
    (hH2 : resp.hourly.precipitationProbability.length = resp.hourly.time.length)
    (hH3 : resp.hourly.precipitation.length = resp.hourly.time.length)
    (hD1 : resp.daily.temperature2mMax.length = resp.daily.time.length)
    (hD2 : resp.daily.temperature2mMin.length = resp.daily.time.length)
    (hD3 : resp.daily.precipitationSum.length = resp.daily.time.length)
    (hD4 : resp.daily.rainSum.length = resp.daily.time.length)
    (hD5 : resp.daily.precipitationHours.length = resp.daily.time.length)
    (hD6 : resp.daily.precipitationProbabilityMax.length = resp.daily.time.length)
    (hD7 : resp.daily.windSpeed10mMax.length = resp.daily.time.length) :
    (∀ r ∈ (presentForecast tzdb now days resp).dailyRows,
        r.1 < resp.daily.time.length ∧
        r.1 < resp.daily.temperature2mMax.length ∧
        r.1 < resp.daily.temperature2mMin.length ∧
        r.1 < resp.daily.precipitationSum.length ∧
        r.1 < resp.daily.rainSum.length ∧
        r.1 < resp.daily.precipitationHours.length ∧
        r.1 < resp.daily.precipitationProbabilityMax.length ∧
        r.1 < resp.daily.windSpeed10mMax.length) ∧
    (∀ idx ∈ (presentForecast tzdb now days resp).hourlyRows,
        idx < resp.hourly.time.length ∧
        idx < resp.hourly.temperature2m.length ∧
        idx < resp.hourly.precipitationProbability.length ∧
        idx < resp.hourly.precipitation.length) ∧
    (resp.hourly.time.length = 0 →
      (findCurrentHourIndex tzdb now resp.hourly.time resp.timezone).1 = 0) ∧
    (0 < resp.hourly.time.length →
      (findCurrentHourIndex tzdb now resp.hourly.time resp.timezone).1 <
        resp.hourly.time.length) := by
  refine ⟨?_, ?_, ?_, ?_⟩
  · intro r hr
    have hRows : (presentForecast tzdb now days resp).dailyRows =
        renderDaily days resp.daily.time.length := rfl
    rw [hRows, renderDaily_eq] at hr
    simp only [List.mem_map, List.mem_range] at hr
    obtain ⟨i, hi, rfl⟩ := hr
    rw [hD1, hD2, hD3, hD4, hD5, hD6, hD7]
    refine ⟨by omega, by omega, by omega, by omega, by omega, by omega,
      by omega, by omega⟩
  · intro idx hidx
    have hRows : (presentForecast tzdb now days resp).hourlyRows =
        renderHourly resp.hourly.time.length
          (currentIndexUsed tzdb now resp.hourly.time resp.timezone) := rfl
    rw [hRows, renderHourly_eq] at hidx
    simp only [List.mem_map, List.mem_range] at hidx
    obtain ⟨j, hj, rfl⟩ := hidx
    rw [hH1, hH2, hH3]
    refine ⟨by omega, by omega, by omega, by omega⟩
  · intro hLen
    have hNil : resp.hourly.time = [] := List.length_eq_zero.mp hLen
    cases hL : loadLocation tzdb resp.timezone with
    | none => simp [findCurrentHourIndex, hL]
    | some u => simp [findCurrentHourIndex, hL, hNil, scanHours]
  · intro hLen
    cases hL : loadLocation tzdb resp.timezone with
    | none => simp only [findCurrentHourIndex, hL]; exact hLen
    | some u =>
      simp only [findCurrentHourIndex, hL]
      exact scanHours_lt_length now resp.hourly.time hLen

/-- Witness for C9 on a concrete index-aligned forecast record. -/
theorem render_indices_in_bounds_witness :
    sampleResp.hourly.temperature2m.length = sampleResp.hourly.time.length ∧
    sampleResp.hourly.precipitationProbability.length = sampleResp.hourly.time.length ∧
    sampleResp.hourly.precipitation.length = sampleResp.hourly.time.length ∧
    sampleResp.daily.temperature2mMax.length = sampleResp.daily.time.length ∧
    sampleResp.daily.temperature2mMin.length = sampleResp.daily.time.length ∧
    sampleResp.daily.precipitationSum.length = sampleResp.daily.time.length ∧
    sampleResp.daily.rainSum.length = sampleResp.daily.time.length ∧
    sampleResp.daily.precipitationHours.length = sampleResp.daily.time.length ∧
    sampleResp.daily.precipitationProbabilityMax.length = sampleResp.daily.time.length ∧
    sampleResp.daily.windSpeed10mMax.length = sampleResp.daily.time.length ∧
    ((∀ r ∈ (presentForecast ["UTC"] 0 2 sampleResp).dailyRows,
        r.1 < sampleResp.daily.time.length ∧
        r.1 < sampleResp.daily.temperature2mMax.length ∧
        r.1 < sampleResp.daily.temperature2mMin.length ∧
        r.1 < sampleResp.daily.precipitationSum.length ∧
        r.1 < sampleResp.daily.rainSum.length ∧
        r.1 < sampleResp.daily.precipitationHours.length ∧
        r.1 < sampleResp.daily.precipitationProbabilityMax.length ∧
        r.1 < sampleResp.daily.windSpeed10mMax.length) ∧
     (∀ idx ∈ (presentForecast ["UTC"] 0 2 sampleResp).hourlyRows,
        idx < sampleResp.hourly.time.length ∧
        idx < sampleResp.hourly.temperature2m.length ∧
        idx < sampleResp.hourly.precipitationProbability.length ∧
        idx < sampleResp.hourly.precipitation.length) ∧
     (sampleResp.hourly.time.length = 0 →
       (findCurrentHourIndex ["UTC"] 0 sampleResp.hourly.time
           sampleResp.timezone).1 = 0) ∧
     (0 < sampleResp.hourly.time.length →
       (findCurrentHourIndex ["UTC"] 0 sampleResp.hourly.time
           sampleResp.timezone).1 < sampleResp.hourly.time.length)) :=
  ⟨by decide, by decide, by decide, by decide, by decide, by decide,
   by decide, by decide, by decide, by decide,
   render_indices_in_bounds ["UTC"] 0 2 sampleResp (by decide) (by decide)
     (by decide) (by decide) (by decide) (by decide) (by decide) (by decide)
     (by decide) (by decide)⟩

end Sol
